import Mathlib

/-!
Shallow embedding of the credential lifecycle manager of
`claude-code-sdk-ts` (OAuth PKCE login, file-backed credential store,
token refresh), together with theorems settling the specification
claims about it.

Source files embedded:
  * `src/auth/auth.ts` (two variants of the `Auth` manager),
  * `src/fluent.ts` (the `Auth` manager with CLI-wrapped storage),
  * `src/auth/anthropic.ts` (`AnthropicAuth`: PKCE, exchange, refresh,
    raw credential file access),
  * the `validateCredentials` zod schema,
  * the `AuthFileStorage` provider-keyed record store.

JavaScript values that matter to the claims are modelled explicitly:
JSON documents as an inductive `Json`, `undefined` fields as `Option`,
JS truthiness where the code branches on it, and thrown exceptions as
explicit error constructors.  A file's on-disk state is
`Option (Option Json)`: `none` is a missing file, `some none` a file
whose contents do not parse as JSON (this includes the empty file), and
`some (some j)` a file parsing to the document `j`.
-/

/-- JSON documents (the fragment the credential code manipulates). -/
inductive Json where
  | null : Json
  | bool : Bool → Json
  | num : Int → Json
  | str : String → Json
  | obj : List (String × Json) → Json

/-- JavaScript truthiness of a JSON value. -/
def Json.truthy : Json → Bool
  | .null => false
  | .bool b => b
  | .num n => n != 0
  | .str s => s != ""
  | .obj _ => true

/-- Property lookup on a JSON object's field list (first match; parsed
JSON objects have unique keys).  `none` models JavaScript `undefined`. -/
def jsGet : List (String × Json) → String → Option Json
  | [], _ => none
  | (k, v) :: rest, key => if k = key then some v else jsGet rest key

/-- On-disk state of a credentials file: `none` = no file,
`some none` = present but not parseable as JSON (e.g. an empty file),
`some (some j)` = parses to the document `j`. -/
abbrev FileState := Option (Option Json)

/-- The persisted credential record (`OAuthCredentials` in
`validation.ts`): `type` is the fixed literal `"oauth"`, so only the
three varying fields are carried. -/
structure OAuthCredentials where
  refresh : String
  access : String
  expires : Int
deriving DecidableEq, Repr

/-- Serialization of a credential record, as produced by
`JSON.stringify` on the `OAuthCredentials` object literal. -/
def credToJson (c : OAuthCredentials) : Json :=
  .obj [("type", .str "oauth"), ("refresh", .str c.refresh),
        ("access", .str c.access), ("expires", .num c.expires)]

/-- `validateCredentials` from `validation.ts`: the zod schema requiring
`type = "oauth"`, string `refresh` and `access`, numeric `expires`.
A parse failure (the schema throwing) is modelled as `none`. -/
def validateCredentials : Json → Option OAuthCredentials
  | .obj fs =>
    match jsGet fs "type", jsGet fs "refresh", jsGet fs "access", jsGet fs "expires" with
    | some (.str t), some (.str r), some (.str a), some (.num e) =>
      if t = "oauth" then some ⟨r, a, e⟩ else none
    | _, _, _, _ => none
  | _ => none

/-- `parsed.anthropic || parsed` from `fluent.ts` / `auth.ts` (variant
with CLI-wrapped storage): unwrap the `"anthropic"` envelope when the
field is present and truthy, otherwise use the document itself. -/
def unwrapAnthropic (j : Json) : Json :=
  match j with
  | .obj fs =>
    match jsGet fs "anthropic" with
    | some v => if v.truthy then v else j
    | none => j
  | _ => j

namespace Fluent

/-- `Auth.loadCredentials` (`fluent.ts` lines 564-576): read the file,
parse, unwrap the CLI envelope, validate; any failure is caught and
collapsed to `null`. -/
def loadCredentials (file : FileState) : Option OAuthCredentials :=
  match file with
  | some (some j) => validateCredentials (unwrapAnthropic j)
  | _ => none

/-- The document `Auth.saveCredentials` writes: the credential wrapped
under the `"anthropic"` key for Claude CLI compatibility. -/
def wrapped (c : OAuthCredentials) : FileState :=
  some (some (.obj [("anthropic", credToJson c)]))

/-- `Auth.saveCredentials` (`fluent.ts` lines 581-601): throw a conflict
error (modelled as the `false` flag, leaving the file untouched) when
credentials already load from the path and `overwriteExisting` is not
set; otherwise write the wrapped document.  Result: (did the write
happen, resulting file state). -/
def saveCredentials (overwriteExisting : Bool) (file : FileState)
    (c : OAuthCredentials) : Bool × FileState :=
  if (loadCredentials file).isSome && !overwriteExisting then
    (false, file)
  else
    (true, wrapped c)

/-- `Auth.isValid` (`fluent.ts` lines 606-612): credentials load and the
expiry is strictly beyond now plus the 5-minute buffer. -/
def isValid (now : Int) (file : FileState) : Bool :=
  match loadCredentials file with
  | none => false
  | some c => now + 300000 < c.expires

end Fluent

namespace AuthV1

/-- `Auth.loadCredentials` of the first `auth.ts` variant (lines 49-57):
no envelope unwrapping; parse and validate, any failure collapsed to
`null`. -/
def loadCredentials (file : FileState) : Option OAuthCredentials :=
  match file with
  | some (some j) => validateCredentials j
  | _ => none

/-- `Auth.saveCredentials` of the first `auth.ts` variant (lines 62-67):
unconditionally write the credential, unwrapped. -/
def saveCredentials (c : OAuthCredentials) : FileState :=
  some (some (credToJson c))

end AuthV1

/-- Round-trip through the zod schema: a serialized credential validates
back to itself. -/
theorem validate_credToJson (c : OAuthCredentials) :
    validateCredentials (credToJson c) = some c := rfl

/-- Unwrapping the CLI envelope recovers the serialized credential. -/
theorem unwrap_wrapped (c : OAuthCredentials) :
    unwrapAnthropic (.obj [("anthropic", credToJson c)]) = credToJson c := rfl

/-- Loading a wrapped stored credential returns it. -/
theorem fluent_load_wrapped (c : OAuthCredentials) :
    Fluent.loadCredentials (Fluent.wrapped c) = some c := rfl

/-- C3: for every stored credential `c` and every current time `now`,
`isValid()` returns true if and only if `expires > now + 300000`; in
particular it returns false whenever `expires ≤ now + 300000`. -/
theorem c3_isValid_iff_beyond_buffer (now : Int) (file : FileState)
    (c : OAuthCredentials) (h : Fluent.loadCredentials file = some c) :
    (Fluent.isValid now file = true ↔ c.expires > now + 300000) ∧
    (c.expires ≤ now + 300000 → Fluent.isValid now file = false) := by
  constructor
  · rw [Fluent.isValid, h]
    simp [gt_iff_lt]
  · intro hle
    rw [Fluent.isValid, h]
    simp only [decide_eq_false_iff_not, not_lt]
    exact hle

/-- Witness for C3 at a concrete stored credential and time. -/
theorem c3_witness :
    (Fluent.isValid 0 (Fluent.wrapped ⟨"RT", "AT", 1000000⟩) = true ↔
      (1000000 : Int) > 0 + 300000) ∧
    ((1000000 : Int) ≤ 0 + 300000 →
      Fluent.isValid 0 (Fluent.wrapped ⟨"RT", "AT", 1000000⟩) = false) :=
  c3_isValid_iff_beyond_buffer 0 (Fluent.wrapped ⟨"RT", "AT", 1000000⟩)
    ⟨"RT", "AT", 1000000⟩ rfl

namespace AnthropicAuth

/-- `AnthropicAuth.loadCredentials` (`anthropic.ts` lines 207-217): a
missing file (ENOENT) yields `null`; any other failure — in particular
`JSON.parse` throwing on an unparsable or empty file — is re-thrown
wrapped in an `Error`; a parsed document is returned as credentials by a
type cast, with no schema validation. -/
def loadCredentials (file : FileState) : Except String (Option Json) :=
  match file with
  | none => .ok none
  | some none => .error "Failed to load credentials"
  | some (some j) => .ok (some j)

end AnthropicAuth

/-- C4 counterexample: the claim says every load path returns "absent"
and never throws on an empty (unparsable) file, but
`AnthropicAuth.loadCredentials` — one of the load operations the claim
covers — throws there. -/
theorem c4_counterexample :
    AnthropicAuth.loadCredentials (some none) =
      .error "Failed to load credentials" := rfl

/-- C4 (amended): the `Auth` manager's `loadCredentials`
(`fluent.ts` / `auth.ts`) returns "absent" and never throws on a missing
file, an unparsable (e.g. empty) file, or any document failing schema
validation — in particular on `{}` and `{"kind":"password"}` — while
`AnthropicAuth.loadCredentials` returns "absent" only for a missing
file, throws on an unparsable file, and returns a schema-invalid parsed
document such as `{}` unvalidated instead of "absent". -/
theorem c4_load_absent (file : FileState)
    (h : file = none ∨ file = some none ∨
      ∃ j, file = some (some j) ∧
        validateCredentials (unwrapAnthropic j) = none) :
    Fluent.loadCredentials file = none ∧
    Fluent.loadCredentials (some (some (.obj []))) = none ∧
    Fluent.loadCredentials
      (some (some (.obj [("kind", .str "password")]))) = none ∧
    AnthropicAuth.loadCredentials none = .ok none ∧
    AnthropicAuth.loadCredentials (some (some (.obj []))) =
      .ok (some (.obj [])) := by
  refine ⟨?_, rfl, rfl, rfl, rfl⟩
  rcases h with h | h | ⟨j, hj, hv⟩
  · rw [h]; rfl
  · rw [h]; rfl
  · rw [hj]
    simpa [Fluent.loadCredentials] using hv

/-- Witness for C4 (amended) at the empty-object document `{}`. -/
theorem c4_witness :
    Fluent.loadCredentials (some (some (.obj []))) = none ∧
    Fluent.loadCredentials (some (some (.obj []))) = none ∧
    Fluent.loadCredentials
      (some (some (.obj [("kind", .str "password")]))) = none ∧
    AnthropicAuth.loadCredentials none = .ok none ∧
    AnthropicAuth.loadCredentials (some (some (.obj []))) =
      .ok (some (.obj [])) :=
  c4_load_absent (some (some (.obj [])))
    (Or.inr (Or.inr ⟨.obj [], rfl, rfl⟩))

/-- C5: against a path where a valid credential already loads and
without `overwriteExisting`, `saveCredentials` fails with the conflict
error and leaves the file unchanged; with `overwriteExisting` granted it
writes, and a subsequent `loadCredentials` returns the new value. -/
theorem c5_save_conflict (file : FileState) (c₀ c : OAuthCredentials)
    (h : Fluent.loadCredentials file = some c₀) :
    Fluent.saveCredentials false file c = (false, file) ∧
    (Fluent.saveCredentials true file c).1 = true ∧
    Fluent.loadCredentials (Fluent.saveCredentials true file c).2 =
      some c := by
  refine ⟨?_, ?_, ?_⟩
  · rw [Fluent.saveCredentials, h]
    rfl
  · simp [Fluent.saveCredentials]
  · simp [Fluent.saveCredentials, fluent_load_wrapped]

/-- Witness for C5 at a concrete occupied store. -/
theorem c5_witness :
    Fluent.saveCredentials false (Fluent.wrapped ⟨"R0", "A0", 5⟩)
      ⟨"R1", "A1", 9⟩ = (false, Fluent.wrapped ⟨"R0", "A0", 5⟩) ∧
    (Fluent.saveCredentials true (Fluent.wrapped ⟨"R0", "A0", 5⟩)
      ⟨"R1", "A1", 9⟩).1 = true ∧
    Fluent.loadCredentials
      (Fluent.saveCredentials true (Fluent.wrapped ⟨"R0", "A0", 5⟩)
        ⟨"R1", "A1", 9⟩).2 = some ⟨"R1", "A1", 9⟩ :=
  c5_save_conflict (Fluent.wrapped ⟨"R0", "A0", 5⟩) ⟨"R0", "A0", 5⟩
    ⟨"R1", "A1", 9⟩ rfl

/-- C6: for every syntactically valid credential (non-empty token
strings, any finite expiry), a save followed by a load returns the same
credential in all four fields, in the wrapped (CLI-envelope) mode of
`fluent.ts` — provided the save is not rejected by the protect-existing
check, i.e. the path is empty — and in the unwrapped mode of the first
`auth.ts` variant unconditionally. -/
theorem c6_roundtrip (file : FileState) (c : OAuthCredentials)
    (hr : c.refresh ≠ "") (ha : c.access ≠ "")
    (hempty : Fluent.loadCredentials file = none) :
    (Fluent.saveCredentials false file c).1 = true ∧
    Fluent.loadCredentials (Fluent.saveCredentials false file c).2 =
      some c ∧
    AuthV1.loadCredentials (AuthV1.saveCredentials c) = some c := by
  refine ⟨?_, ?_, rfl⟩
  · rw [Fluent.saveCredentials, hempty]
    rfl
  · rw [Fluent.saveCredentials, hempty]
    simp [fluent_load_wrapped]

/-- Witness for C6 on an empty store and a concrete credential. -/
theorem c6_witness :
    (Fluent.saveCredentials false none ⟨"RT", "AT", 77⟩).1 = true ∧
    Fluent.loadCredentials
      (Fluent.saveCredentials false none ⟨"RT", "AT", 77⟩).2 =
      some ⟨"RT", "AT", 77⟩ ∧
    AuthV1.loadCredentials (AuthV1.saveCredentials ⟨"RT", "AT", 77⟩) =
      some ⟨"RT", "AT", 77⟩ :=
  c6_roundtrip none ⟨"RT", "AT", 77⟩ (by decide) (by decide) rfl

/-- A parsed token-endpoint response body.  `none` in a field models the
field being absent (JavaScript `undefined`). -/
structure RespJson where
  access_token : Option String
  refresh_token : Option String
  expires_in : Option Int
deriving DecidableEq, Repr

/-- An HTTP response from the token endpoint: `ok` status flag, raw body
text, and the outcome of `response.json()` (`none` when the body does
not parse, which makes `response.json()` throw). -/
structure HttpResp where
  ok : Bool
  status : Nat
  text : String
  body : Option RespJson
deriving DecidableEq, Repr

/-- Failures of the token exchange client.  `httpError` is the
`ExchangeFailed` thrown on a non-success status, carrying the raw
response body; `invalidResponse` the `ExchangeFailed` thrown by
`exchange` when required fields are missing; `networkError` the
catch-all wrapping of any other thrown error. -/
inductive ExchangeErr where
  | httpError : Nat → String → ExchangeErr
  | invalidResponse : ExchangeErr
  | networkError : ExchangeErr
deriving DecidableEq, Repr

/-- The credential object the token exchange client returns.
`access_token` is `Option` because `AnthropicAuth.refresh` builds it
from the response without checking presence; `expires_at` is `none`
when `expires_in` was absent (`undefined * 1000` is `NaN`). -/
structure JsTokens where
  access_token : Option String
  refresh_token : String
  expires_at : Option Int
deriving DecidableEq, Repr

/-- JavaScript truthiness of a possibly-absent string. -/
def jsTruthyStr : Option String → Bool
  | some s => s != ""
  | none => false

namespace AnthropicAuth

/-- `AnthropicAuth.refresh` (`anthropic.ts` lines 124-159): on a
non-success status throw `ExchangeFailed` with the raw body; on an
unparsable body the thrown parse error is wrapped as a network
`ExchangeFailed`; otherwise build the credential directly from the
response with no field validation, falling back to the argument refresh
token when `data.refresh_token` is falsy. -/
def refresh (now : Int) (refreshToken : String) (resp : HttpResp) :
    Except ExchangeErr JsTokens :=
  if !resp.ok then .error (.httpError resp.status resp.text)
  else
    match resp.body with
    | none => .error .networkError
    | some d =>
      .ok ⟨d.access_token,
        (match d.refresh_token with
         | some rt => if rt != "" then rt else refreshToken
         | none => refreshToken),
        d.expires_in.map (fun s => now + s * 1000)⟩

/-- `AnthropicAuth.exchange` (`anthropic.ts` lines 77-119): same status
and parse handling as `refresh`, but additionally throws
`ExchangeFailed` when `access_token` or `refresh_token` is missing from
the response body. -/
def exchange (now : Int) (resp : HttpResp) : Except ExchangeErr JsTokens :=
  if !resp.ok then .error (.httpError resp.status resp.text)
  else
    match resp.body with
    | none => .error .networkError
    | some d =>
      if !jsTruthyStr d.access_token || !jsTruthyStr d.refresh_token then
        .error .invalidResponse
      else
        .ok ⟨d.access_token, d.refresh_token.getD "",
          d.expires_in.map (fun s => now + s * 1000)⟩

end AnthropicAuth

/-- C7: when the provider's refresh response omits the `refresh_token`
field, the returned credential retains the refresh token that was passed
in; when the response includes a (non-empty) new refresh token, that new
token is returned instead. -/
theorem c7_refresh_token_rotation (now : Int) (rt : String)
    (status : Nat) (text : String) (d : RespJson) (res : JsTokens)
    (h : AnthropicAuth.refresh now rt ⟨true, status, text, some d⟩ =
      .ok res) :
    (d.refresh_token = none → res.refresh_token = rt) ∧
    (∀ s, d.refresh_token = some s → s ≠ "" → res.refresh_token = s) := by
  rw [AnthropicAuth.refresh] at h
  simp only [Bool.not_true, Bool.false_eq_true, if_false, ite_false] at h
  obtain rfl : res = _ := (Except.ok.injEq _ _).mp h.symm
  constructor
  · intro hnone
    simp [hnone]
  · intro s hs hne
    simp [hs, hne]

/-- Witness for C7: a response carrying a new refresh token, and the
fallback behavior checked through the theorem at that input. -/
theorem c7_witness :
    ((⟨some "AT2", some "RT2", some 3600⟩ : RespJson).refresh_token =
        none →
      (⟨some "AT2", "RT2", some 4600000⟩ : JsTokens).refresh_token =
        "RT1") ∧
    (∀ s, (⟨some "AT2", some "RT2", some 3600⟩ : RespJson).refresh_token
        = some s → s ≠ "" →
      (⟨some "AT2", "RT2", some 4600000⟩ : JsTokens).refresh_token = s) :=
  c7_refresh_token_rotation 1000000 "RT1" 200 "" ⟨some "AT2", some "RT2", some 3600⟩
    ⟨some "AT2", "RT2", some 4600000⟩ rfl

/-- C8 (code evaluated at the failing input): on a success response whose
body lacks `access_token`, `refresh` does not fail — it returns a
credential with an absent access token — while `exchange` on the very
same response fails with `ExchangeFailed`, so the two do not share the
same failure contract; on a non-success status `refresh` does fail with
`ExchangeFailed` carrying the raw body, and on success it computes
`expiresAt = now + expires_in * 1000`. -/
theorem c8_refresh_skips_body_validation :
    AnthropicAuth.refresh 1000000 "RT1"
        ⟨true, 200, "", some ⟨none, some "RT2", some 3600⟩⟩ =
      .ok ⟨none, "RT2", some 4600000⟩ ∧
    AnthropicAuth.exchange 1000000
        ⟨true, 200, "", some ⟨none, some "RT2", some 3600⟩⟩ =
      .error .invalidResponse ∧
    AnthropicAuth.refresh 1000000 "RT1"
        ⟨false, 500, "server blew up", some ⟨none, some "RT2", some 3600⟩⟩ =
      .error (.httpError 500 "server blew up") :=
  ⟨rfl, rfl, rfl⟩

/-- Outcome of a `getToken()` call.  The error constructors correspond
to the thrown errors of `fluent.ts`: `notAuthenticated` to "Not
authenticated", `tokenExpired` to "Token expired", `conflict` to the
"Credentials already exist" error thrown by `saveCredentials` during
the refresh persist step, `refreshFailed` to a propagated
`ExchangeFailed`.  `token` carries the returned access token and the
resulting file state. -/
inductive GetTokenOutcome where
  | notAuthenticated : GetTokenOutcome
  | tokenExpired : GetTokenOutcome
  | conflict : GetTokenOutcome
  | refreshFailed : ExchangeErr → GetTokenOutcome
  | token : String → FileState → GetTokenOutcome

namespace Fluent

/-- `Auth.getToken` (`fluent.ts` lines 617-641, identically the second
`auth.ts` variant lines 334-358): load credentials (fail when absent);
when within the 5-minute buffer of expiry, either refresh — persisting
the result through `saveCredentials`, whose protect-existing check runs
with the manager's configured `overwriteExisting` flag — or fail with
the token-expired error when auto-refresh is disabled; otherwise return
the stored access token.  The network refresh client is the abstract
collaborator `refreshFn`. -/
def getToken (now : Int) (autoRefresh overwriteExisting : Bool)
    (refreshFn : String → Except ExchangeErr OAuthCredentials)
    (file : FileState) : GetTokenOutcome :=
  match loadCredentials file with
  | none => .notAuthenticated
  | some c =>
    if c.expires ≤ now + 300000 then
      if autoRefresh then
        match refreshFn c.refresh with
        | .error e => .refreshFailed e
        | .ok r =>
          match saveCredentials overwriteExisting file r with
          | (false, _) => .conflict
          | (true, f') => .token r.access f'
      else .tokenExpired
    else .token c.access file

end Fluent

/-- C2 (code evaluated at the failing input): with an expired credential
stored at the path, auto-refresh enabled, and the default
`overwriteExisting = false`, `getToken()`'s persist step hits the
protect-existing check — the old credential still loads from the path —
and throws the conflict error instead of persisting the refreshed
credential and returning its access token; only when `overwriteExisting`
is set does the documented refresh-persist-return behavior happen, and
with auto-refresh disabled the call fails with the token-expired error
as the claim states. -/
theorem c2_refresh_persist_conflicts :
    Fluent.getToken 1000000000000 true false
        (fun _ => .ok ⟨"RT1", "NEW", 2000000000000⟩)
        (Fluent.wrapped ⟨"RT0", "OLD", 0⟩) = .conflict ∧
    Fluent.getToken 1000000000000 true true
        (fun _ => .ok ⟨"RT1", "NEW", 2000000000000⟩)
        (Fluent.wrapped ⟨"RT0", "OLD", 0⟩) =
      .token "NEW" (Fluent.wrapped ⟨"RT1", "NEW", 2000000000000⟩) ∧
    Fluent.getToken 1000000000000 false false
        (fun _ => .ok ⟨"RT1", "NEW", 2000000000000⟩)
        (Fluent.wrapped ⟨"RT0", "OLD", 0⟩) = .tokenExpired :=
  ⟨rfl, rfl, rfl⟩

/-- What a single task of the concurrency model still has to do.
A `getToken()` call of the first `auth.ts` variant is split at its
suspension points: `ready` (about to read the credentials file),
`needSave` (the refresh network call has been issued and answered; the
new credential must be written), `finished`. -/
inductive TaskPhase where
  | ready : TaskPhase
  | needSave : OAuthCredentials → TaskPhase
  | finished : GetTokenOutcome → TaskPhase

/-- Shared state of two concurrent `getToken()` calls against the same
credentials path: the on-disk file, the number of `refresh()` network
calls issued so far, and each task's phase. -/
structure ConcState where
  disk : FileState
  refreshCalls : Nat
  t0 : TaskPhase
  t1 : TaskPhase

/-- One atomic step of a single `getToken()` task (first `auth.ts`
variant, auto-refresh enabled): from `ready`, read the file and check
expiry — absent credentials finish with the not-authenticated error, a
token beyond the buffer finishes with it, an expired one issues the
`refresh()` network call (incrementing the global call counter; the
stubbed network answers call number `n` with `refreshFn n`); from
`needSave`, write the refreshed credential and finish with its access
token.  Returns the new phase, disk, and call counter. -/
def stepTask (now : Int) (refreshFn : Nat → OAuthCredentials)
    (disk : FileState) (calls : Nat) :
    TaskPhase → TaskPhase × FileState × Nat
  | .ready =>
    match AuthV1.loadCredentials disk with
    | none => (.finished .notAuthenticated, disk, calls)
    | some c =>
      if c.expires ≤ now + 300000 then
        (.needSave (refreshFn calls), disk, calls + 1)
      else (.finished (.token c.access disk), disk, calls)
  | .needSave c =>
    (.finished (.token c.access (AuthV1.saveCredentials c)),
      AuthV1.saveCredentials c, calls)
  | .finished r => (.finished r, disk, calls)

/-- Run one step of the scheduled task (`false` = task 0, `true` =
task 1) of the two-task system. -/
def stepSys (now : Int) (refreshFn : Nat → OAuthCredentials)
    (σ : ConcState) (i : Bool) : ConcState :=
  if i then
    match stepTask now refreshFn σ.disk σ.refreshCalls σ.t1 with
    | (p, d, k) => ⟨d, k, σ.t0, p⟩
  else
    match stepTask now refreshFn σ.disk σ.refreshCalls σ.t0 with
    | (p, d, k) => ⟨d, k, p, σ.t1⟩

/-- Run the two-task system under a cooperative schedule. -/
def runSched (now : Int) (refreshFn : Nat → OAuthCredentials)
    (sched : List Bool) (σ : ConcState) : ConcState :=
  sched.foldl (stepSys now refreshFn) σ

/-- C1 (code evaluated at the failing interleaving): two concurrent
`getToken()` calls against the same stored expired credential, under the
schedule where both complete their credential load before either refresh
resolves — a schedule the cooperative event loop permits, since nothing
in the code coalesces or serializes refreshes — issue two `refresh()`
network calls, and the two callers resolve to different access tokens
when the provider answers the two calls differently. -/
theorem c1_concurrent_double_refresh :
    (runSched 1000000000000
        (fun n => ⟨"RT", if n = 0 then "A0" else "A1", 9000000000000⟩)
        [false, true, false, true]
        ⟨AuthV1.saveCredentials ⟨"RT0", "OLD", 0⟩, 0, .ready, .ready⟩).refreshCalls
      = 2 ∧
    (runSched 1000000000000
        (fun n => ⟨"RT", if n = 0 then "A0" else "A1", 9000000000000⟩)
        [false, true, false, true]
        ⟨AuthV1.saveCredentials ⟨"RT0", "OLD", 0⟩, 0, .ready, .ready⟩).t0
      = .finished (.token "A0"
          (AuthV1.saveCredentials ⟨"RT", "A0", 9000000000000⟩)) ∧
    (runSched 1000000000000
        (fun n => ⟨"RT", if n = 0 then "A0" else "A1", 9000000000000⟩)
        [false, true, false, true]
        ⟨AuthV1.saveCredentials ⟨"RT0", "OLD", 0⟩, 0, .ready, .ready⟩).t1
      = .finished (.token "A1"
          (AuthV1.saveCredentials ⟨"RT", "A1", 9000000000000⟩)) ∧
    "A0" ≠ "A1" := by
  refine ⟨rfl, rfl, rfl, by decide⟩

/-! SHA-256 over byte lists (each byte a `Nat < 256`), standing in for
Node's `createHash('sha256')`, and URL-safe unpadded base64, standing in
for `Buffer.toString('base64url')`. -/

/-- Truncate to a 32-bit word. -/
def w32 (n : Nat) : Nat := n % 4294967296

/-- 32-bit bitwise complement. -/
def wNot (x : Nat) : Nat := 4294967295 ^^^ x

/-- Rotate a 32-bit word right by `n`. -/
def rotr (n x : Nat) : Nat := w32 ((x >>> n) ||| (x <<< (32 - n)))

def shaCh (x y z : Nat) : Nat := (x &&& y) ^^^ (wNot x &&& z)

def shaMaj (x y z : Nat) : Nat := (x &&& y) ^^^ (x &&& z) ^^^ (y &&& z)

def bigSigma0 (x : Nat) : Nat := rotr 2 x ^^^ rotr 13 x ^^^ rotr 22 x

def bigSigma1 (x : Nat) : Nat := rotr 6 x ^^^ rotr 11 x ^^^ rotr 25 x

def smallSigma0 (x : Nat) : Nat := rotr 7 x ^^^ rotr 18 x ^^^ (x >>> 3)

def smallSigma1 (x : Nat) : Nat := rotr 17 x ^^^ rotr 19 x ^^^ (x >>> 10)

/-- SHA-256 round constants (FIPS 180-4, in decimal). -/
def shaK : List Nat :=
  [1116352408, 1899447441, 3049323471, 3921009573, 961987163, 1508970993,
   2453635748, 2870763221, 3624381080, 310598401, 607225278, 1426881987,
   1925078388, 2162078206, 2614888103, 3248222580, 3835390401, 4022224774,
   264347078, 604807628, 770255983, 1249150122, 1555081692, 1996064986,
   2554220882, 2821834349, 2952996808, 3210313671, 3336571891, 3584528711,
   113926993, 338241895, 666307205, 773529912, 1294757372, 1396182291,
   1695183700, 1986661051, 2177026350, 2456956037, 2730485921, 2820302411,
   3259730800, 3345764771, 3516065817, 3600352804, 4094571909, 275423344,
   430227734, 506948616, 659060556, 883997877, 958139571, 1322822218,
   1537002063, 1747873779, 1955562222, 2024104815, 2227730452, 2361852424,
   2428436474, 2756734187, 3204031479, 3329325298]

/-- SHA-256 initial hash value (FIPS 180-4, in decimal). -/
def shaH0 : List Nat :=
  [1779033703, 3144134277, 1013904242, 2773480762,
   1359893119, 2600822924, 528734635, 1541459225]

/-- Big-endian byte decomposition of `n` into `k` bytes. -/
def natToBytesBE (k n : Nat) : List Nat :=
  (List.range k).map (fun i => (n >>> (8 * (k - 1 - i))) % 256)

/-- Extend the 16-word message schedule by `fuel` further words. -/
def extendW : List Nat → Nat → List Nat
  | w, 0 => w
  | w, fuel + 1 =>
    let i := w.length
    extendW
      (w ++ [w32 (smallSigma1 (w.getD (i - 2) 0) + w.getD (i - 7) 0 +
        smallSigma0 (w.getD (i - 15) 0) + w.getD (i - 16) 0)]) fuel

/-- Working state of the SHA-256 compression function. -/
structure ShaState where
  a : Nat
  b : Nat
  c : Nat
  d : Nat
  e : Nat
  f : Nat
  g : Nat
  h : Nat

/-- One round of the SHA-256 compression function. -/
def shaRound (st : ShaState) (kw : Nat × Nat) : ShaState :=
  let t1 := w32 (st.h + bigSigma1 st.e + shaCh st.e st.f st.g + kw.1 + kw.2)
  let t2 := w32 (bigSigma0 st.a + shaMaj st.a st.b st.c)
  ⟨w32 (t1 + t2), st.a, st.b, st.c, w32 (st.d + t1), st.e, st.f, st.g⟩

/-- The 16 big-endian words of one 64-byte block. -/
def blockWords (block : List Nat) : List Nat :=
  (List.range 16).map (fun i =>
    block.getD (4 * i) 0 * 16777216 + block.getD (4 * i + 1) 0 * 65536 +
    block.getD (4 * i + 2) 0 * 256 + block.getD (4 * i + 3) 0)

/-- Compress one 64-byte block into the running hash. -/
def processBlock (hs : List Nat) (block : List Nat) : List Nat :=
  let w := extendW (blockWords block) 48
  let st0 : ShaState :=
    ⟨hs.getD 0 0, hs.getD 1 0, hs.getD 2 0, hs.getD 3 0,
     hs.getD 4 0, hs.getD 5 0, hs.getD 6 0, hs.getD 7 0⟩
  let st := (shaK.zip w).foldl shaRound st0
  [w32 (hs.getD 0 0 + st.a), w32 (hs.getD 1 0 + st.b),
   w32 (hs.getD 2 0 + st.c), w32 (hs.getD 3 0 + st.d),
   w32 (hs.getD 4 0 + st.e), w32 (hs.getD 5 0 + st.f),
   w32 (hs.getD 6 0 + st.g), w32 (hs.getD 7 0 + st.h)]

/-- Split a byte list into 64-byte chunks (`fuel` bounds the recursion;
callers pass the list length). -/
def chunks64 : Nat → List Nat → List (List Nat)
  | 0, _ => []
  | fuel + 1, bs =>
    if bs.isEmpty then [] else bs.take 64 :: chunks64 fuel (bs.drop 64)

/-- SHA-256 padding: append `0x80`, zeros to 56 mod 64, then the bit
length as 8 big-endian bytes. -/
def shaPad (bs : List Nat) : List Nat :=
  bs ++ 0x80 :: List.replicate ((64 + 55 - bs.length % 64) % 64) 0 ++
    natToBytesBE 8 (8 * bs.length)

/-- SHA-256 digest (32 bytes) of a byte list. -/
def sha256 (bs : List Nat) : List Nat :=
  ((chunks64 (shaPad bs).length (shaPad bs)).foldl processBlock shaH0).foldr
    (fun h acc => natToBytesBE 4 h ++ acc) []

/-- The URL-safe base64 alphabet. -/
def base64urlChars : List Char :=
  "ABCDEFGHIJKLMNOPQRSTUVWXYZabcdefghijklmnopqrstuvwxyz0123456789-_".toList

def b64c (n : Nat) : Char := base64urlChars.getD n 'A'

/-- Unpadded URL-safe base64 of a byte list (Node's `'base64url'`). -/
def base64urlEncodeAux : List Nat → List Char
  | [] => []
  | [b0] => [b64c (b0 / 4), b64c (b0 % 4 * 16)]
  | [b0, b1] =>
    [b64c (b0 / 4), b64c (b0 % 4 * 16 + b1 / 16), b64c (b1 % 16 * 4)]
  | b0 :: b1 :: b2 :: rest =>
    b64c (b0 / 4) :: b64c (b0 % 4 * 16 + b1 / 16) ::
      b64c (b1 % 16 * 4 + b2 / 64) :: b64c (b2 % 64) ::
      base64urlEncodeAux rest

def base64urlEncode (bs : List Nat) : String :=
  String.mk (base64urlEncodeAux bs)

/-- UTF-8 bytes of an ASCII string (base64url output is ASCII, so the
code point is the byte). -/
def strBytes (s : String) : List Nat := s.toList.map Char.toNat

namespace AnthropicAuth

/-- `AnthropicAuth.generatePKCE` (`anthropic.ts` lines 41-51): the
verifier is the base64url encoding of 32 random bytes (the entropy drawn
from `randomBytes(32)`, here an explicit argument — the function has no
other effect), and the challenge is the base64url encoding of the
SHA-256 digest of the verifier string. -/
def generatePKCE (entropy : List Nat) : String × String :=
  let codeVerifier := base64urlEncode entropy
  let codeChallenge := base64urlEncode (sha256 (strBytes codeVerifier))
  (codeVerifier, codeChallenge)

end AnthropicAuth

/-- C9: for every draw of 32 random bytes, the PKCE verifier is their
URL-safe base64 encoding, and the accompanying challenge is the URL-safe
base64 encoding of SHA-256 of the verifier; the generator is a pure
function of the entropy (no side effects). -/
theorem c9_pkce_challenge (entropy : List Nat) (h : entropy.length = 32) :
    (AnthropicAuth.generatePKCE entropy).1 = base64urlEncode entropy ∧
    (AnthropicAuth.generatePKCE entropy).2 =
      base64urlEncode
        (sha256 (strBytes (AnthropicAuth.generatePKCE entropy).1)) := by
  exact ⟨rfl, rfl⟩

/-- Witness for C9 at a concrete 32-byte entropy draw. -/
theorem c9_witness :
    (AnthropicAuth.generatePKCE (List.range 32)).1 =
      base64urlEncode (List.range 32) ∧
    (AnthropicAuth.generatePKCE (List.range 32)).2 =
      base64urlEncode
        (sha256 (strBytes (AnthropicAuth.generatePKCE (List.range 32)).1)) :=
  c9_pkce_challenge (List.range 32) (by decide)

namespace AuthFileStorage

/-- The provider record an `AuthFileStorage` file parses to: provider id
keys mapped to credential entries (`AuthInfo` has the single `oauth`
variant, so the entry is the credential record), in document order. -/
abbrev ProviderRecord := List (String × OAuthCredentials)

/-- Property read on a provider record (JavaScript `x[providerID]`);
parsed JSON objects have unique keys, so the first match is the value. -/
def getProvider : ProviderRecord → String → Option OAuthCredentials
  | [], _ => none
  | (k, v) :: rest, key => if k = key then some v else getProvider rest key

/-- Replace the value at `key` in place (object spread keeps the
position of an existing key). -/
def replaceEntry : ProviderRecord → String → OAuthCredentials →
    ProviderRecord
  | [], _, _ => []
  | (k, v) :: rest, key, info =>
    if k = key then (key, info) :: replaceEntry rest key info
    else (k, v) :: replaceEntry rest key info

/-- Drop the entry at `key` (`delete data[key]`). -/
def dropEntry : ProviderRecord → String → ProviderRecord
  | [], _ => []
  | (k, v) :: rest, key =>
    if k = key then dropEntry rest key else (k, v) :: dropEntry rest key

/-- `AuthFileStorage.set`: write `{...data, [key]: info}` — the entry at
`key` is replaced in place when present (spread keeps its position),
otherwise appended. -/
def set (data : ProviderRecord) (key : String) (info : OAuthCredentials) :
    ProviderRecord :=
  if data.any (fun p => p.1 = key) then replaceEntry data key info
  else data ++ [(key, info)]

/-- `AuthFileStorage.remove`: `delete data[key]` then write — the entry
at `key` is dropped, the rest written back unchanged. -/
def remove (data : ProviderRecord) (key : String) : ProviderRecord :=
  dropEntry data key

theorem getProvider_replace_self (data : ProviderRecord)
    (key : String) (info : OAuthCredentials)
    (hany : (data.any fun p => p.1 = key) = true) :
    getProvider (replaceEntry data key info) key = some info := by
  induction data with
  | nil => simp at hany
  | cons p rest ih =>
    obtain ⟨pk, pv⟩ := p
    simp only [List.any_cons, Bool.or_eq_true, decide_eq_true_eq] at hany
    by_cases hp : pk = key
    · simp [replaceEntry, hp, getProvider]
    · have h2 : (rest.any fun p => decide (p.1 = key)) = true := by
        rcases hany with h | h
        · exact absurd h hp
        · exact h
      simpa [replaceEntry, hp, getProvider] using ih h2

theorem getProvider_append_self (data : ProviderRecord) (key : String)
    (info : OAuthCredentials)
    (hnone : (data.any fun p => p.1 = key) = false) :
    getProvider (data ++ [(key, info)]) key = some info := by
  induction data with
  | nil => simp [getProvider]
  | cons p rest ih =>
    obtain ⟨pk, pv⟩ := p
    simp only [List.any_cons, Bool.or_eq_false_iff, decide_eq_false_iff_not]
      at hnone
    simpa [getProvider, hnone.1] using ih hnone.2

theorem getProvider_replace_other (data : ProviderRecord)
    (key k' : String) (info : OAuthCredentials) (h : k' ≠ key) :
    getProvider (replaceEntry data key info) k' = getProvider data k' := by
  induction data with
  | nil => rfl
  | cons p rest ih =>
    obtain ⟨pk, pv⟩ := p
    by_cases hp : pk = key
    · subst hp
      simpa [replaceEntry, getProvider, Ne.symm h] using ih
    · by_cases hp' : pk = k'
      · simp [replaceEntry, getProvider, hp, hp', h]
      · simpa [replaceEntry, getProvider, hp, hp'] using ih

theorem getProvider_append_other (data : ProviderRecord)
    (key k' : String) (info : OAuthCredentials) (h : k' ≠ key) :
    getProvider (data ++ [(key, info)]) k' = getProvider data k' := by
  induction data with
  | nil => simp [getProvider, Ne.symm h]
  | cons p rest ih =>
    obtain ⟨pk, pv⟩ := p
    by_cases hp' : pk = k'
    · simp [getProvider, hp']
    · simpa [getProvider, hp'] using ih

theorem getProvider_set_self (data : ProviderRecord) (key : String)
    (info : OAuthCredentials) :
    getProvider (set data key info) key = some info := by
  rw [set]
  split
  · rename_i hany
    exact getProvider_replace_self data key info (by simpa using hany)
  · rename_i hany
    exact getProvider_append_self data key info
      (by simpa using Bool.of_not_eq_true hany)

theorem getProvider_set_other (data : ProviderRecord) (key k' : String)
    (info : OAuthCredentials) (h : k' ≠ key) :
    getProvider (set data key info) k' = getProvider data k' := by
  rw [set]
  split
  · exact getProvider_replace_other data key k' info h
  · exact getProvider_append_other data key k' info h

theorem getProvider_remove_self (data : ProviderRecord) (key : String) :
    getProvider (remove data key) key = none := by
  rw [remove]
  induction data with
  | nil => rfl
  | cons p rest ih =>
    obtain ⟨pk, pv⟩ := p
    by_cases hp : pk = key
    · simpa [dropEntry, hp] using ih
    · simpa [dropEntry, getProvider, hp] using ih

theorem getProvider_remove_other (data : ProviderRecord) (key k' : String)
    (h : k' ≠ key) :
    getProvider (remove data key) k' = getProvider data k' := by
  rw [remove]
  induction data with
  | nil => rfl
  | cons p rest ih =>
    obtain ⟨pk, pv⟩ := p
    by_cases hp : pk = key
    · simpa [dropEntry, getProvider, hp, Ne.symm h] using ih
    · by_cases hp' : pk = k'
      · simp [dropEntry, getProvider, hp, hp', h]
      · simpa [dropEntry, getProvider, hp, hp'] using ih

end AuthFileStorage

/-- C10: on every parsed provider record, `set(key, info)` maps `key`
to `info` and leaves every entry with a different key unchanged, and
`remove(key)` deletes exactly the entry at `key`, leaving all others
unchanged. -/
theorem c10_storage_frame (data : AuthFileStorage.ProviderRecord)
    (key k' : String) (info : OAuthCredentials) (h : k' ≠ key) :
    AuthFileStorage.getProvider (AuthFileStorage.set data key info) key =
      some info ∧
    AuthFileStorage.getProvider (AuthFileStorage.set data key info) k' =
      AuthFileStorage.getProvider data k' ∧
    AuthFileStorage.getProvider (AuthFileStorage.remove data key) key =
      none ∧
    AuthFileStorage.getProvider (AuthFileStorage.remove data key) k' =
      AuthFileStorage.getProvider data k' :=
  ⟨AuthFileStorage.getProvider_set_self data key info,
   AuthFileStorage.getProvider_set_other data key k' info h,
   AuthFileStorage.getProvider_remove_self data key,
   AuthFileStorage.getProvider_remove_other data key k' h⟩

/-- Witness for C10 on a concrete two-provider record. -/
theorem c10_witness :
    AuthFileStorage.getProvider
      (AuthFileStorage.set [("other", ⟨"r", "a", 1⟩)] "anthropic"
        ⟨"R", "A", 9⟩) "anthropic" = some ⟨"R", "A", 9⟩ ∧
    AuthFileStorage.getProvider
      (AuthFileStorage.set [("other", ⟨"r", "a", 1⟩)] "anthropic"
        ⟨"R", "A", 9⟩) "other" =
      AuthFileStorage.getProvider [("other", ⟨"r", "a", 1⟩)] "other" ∧
    AuthFileStorage.getProvider
      (AuthFileStorage.remove [("other", ⟨"r", "a", 1⟩)] "anthropic")
      "anthropic" = none ∧
    AuthFileStorage.getProvider
      (AuthFileStorage.remove [("other", ⟨"r", "a", 1⟩)] "anthropic")
      "other" =
      AuthFileStorage.getProvider [("other", ⟨"r", "a", 1⟩)] "other" :=
  c10_storage_frame [("other", ⟨"r", "a", 1⟩)] "anthropic" "other"
    ⟨"R", "A", 9⟩ (by decide)
